import Mathlib

/-!
# Verification of the probe-rs debugger per-core session handle (`core_data.rs`)

Shallow embedding of `src/debugger/src/debugger/core_data.rs`: the status
poller (`poll_core`), the breakpoint lifecycle (`set_breakpoint`,
`clear_breakpoint`, `clear_breakpoints`, `verify_and_set_breakpoint`,
`recompute_breakpoints`) and the RTT logging-channel attachment
(`attach_to_rtt`).  External collaborators (the probe hardware, the DAP
protocol adapter, the symbol resolver, the RTT transport) are modelled as
explicit inputs: fallible hardware operations are driven by failure
oracles, and every operation returns its result together with the
post-state and the list of emitted protocol events, mirroring the Rust
`&mut self` methods that mutate their receiver even when they return
`Err`.
-/

namespace ProbeRs

/-- `probe_rs::HaltReason`: the reason a core is halted. -/
inductive HaltReason where
  | breakpoint
  | exception
  | watchpoint
  | external
  | request
  | step
  | multiple
  | unknown
deriving DecidableEq

/-- `probe_rs::CoreStatus`: the coarse hardware execution state of a core. -/
inductive CoreStatus where
  | running
  | halted (reason : HaltReason)
  | lockedUp
  | sleeping
  | unknown
deriving DecidableEq

/-- `MessageSeverity` of a `show_message` notification. -/
inductive MessageSeverity where
  | error
  | warning
  | information
deriving DecidableEq

/-- `probe_rs_cli_util::rtt::DataFormat`: payload format of an RTT channel. -/
inductive DataFormat where
  | string_
  | binaryLE
  | defmt
deriving DecidableEq

/-- `probe_rs_cli_util::rtt::ChannelMode`: hardware buffering mode of an RTT channel. -/
inductive ChannelMode where
  | noBlockSkip
  | noBlockTrim
  | blockIfFull
deriving DecidableEq

/-- `probe_rs::debug::ColumnType`: a source column, either the left edge or a concrete column. -/
inductive ColumnType where
  | leftEdge
  | column (c : Nat)
deriving DecidableEq

/-- DAP `Source` descriptor attached to a source breakpoint (only the fields
the session core carries around; it is opaque data to `core_data.rs`). -/
structure Source where
  name : Option String
  path : Option String
deriving DecidableEq

/-- `probe_rs::debug::SourceLocation` as stored inside a source breakpoint. -/
structure SourceLocation where
  line : Option Nat
  column : Option ColumnType
  file : Option String
  directory : Option String
deriving DecidableEq

/-- Modelled from the spec: `SourceLocation::combined_path` (probe-rs debug
library code outside `src/`) combines the directory and file name of the
location into a single path when both parts are present; a location with no
combined file path yields `none`. -/
def SourceLocation.combined_path (sl : SourceLocation) : Option String :=
  match sl.directory, sl.file with
  | some d, some f => some (d ++ "/" ++ f)
  | _, _ => none

/-- `session_data::BreakpointType`: a tagged breakpoint kind.  The source
variant carries the DAP source descriptor and the resolved location; the
other kind (modelled from the spec: "other-kind (e.g., transient step
breakpoint)", declared in `session_data.rs` outside `src/`) carries no
re-resolution data. -/
inductive BreakpointType where
  | sourceBreakpoint (source : Source) (location : SourceLocation)
  | instructionBreakpoint
deriving DecidableEq

/-- `session_data::ActiveBreakpoint`: one cached breakpoint record. -/
structure ActiveBreakpoint where
  breakpoint_type : BreakpointType
  address : Nat
deriving DecidableEq

/-- An RTT up (target-to-host) channel, exposing its channel number. -/
structure UpChannel where
  number : Nat
deriving DecidableEq

/-- One channel of an `RttActiveTarget`: an optional up channel, the payload
format, and the channel name. -/
structure RttActiveChannel where
  up_channel : Option UpChannel
  data_format : DataFormat
  channel_name : String
deriving DecidableEq

/-- `probe_rs_cli_util::rtt::RttActiveTarget`: the attached RTT transport,
exposing its active channels. -/
structure RttActiveTarget where
  active_channels : List RttActiveChannel
deriving DecidableEq

/-- `debug_rtt::DebuggerRttChannel`: the cached per-channel descriptor. -/
structure DebuggerRttChannel where
  channel_number : Nat
  has_client_window : Bool
deriving DecidableEq

/-- `debug_rtt::RttConnection`: the cached logging connection. -/
structure RttConnection where
  target_rtt : RttActiveTarget
  debugger_rtt_channels : List DebuggerRttChannel
deriving DecidableEq

/-- `probe_rs::debug::stack_frame::StackFrame` (only the identifier matters
to this core). -/
structure StackFrame where
  id : Int
deriving DecidableEq

/-- `CoreData`: the per-core session cache (the fields this core mutates). -/
structure CoreData where
  core_index : Nat
  last_known_status : CoreStatus
  stack_frames : List StackFrame
  breakpoints : List ActiveBreakpoint
  rtt_connection : Option RttConnection
deriving DecidableEq

/-- A protocol event or hardware side effect emitted towards the DAP client. -/
inductive Event where
  | continued (all_threads_continued : Bool) (thread_id : Nat)
  | stopped (reason : String) (description : String) (thread_id : Nat)
      (preserve_focus_hint : Bool) (all_threads_stopped : Bool)
  | showMessage (severity : MessageSeverity) (text : String)
  | errorResponse (text : String)
  | rttWindow (channel_number : Nat) (name : String) (format : DataFormat)
deriving DecidableEq

/-- Modelled from the spec: `DapStatus::short_long_status` (declared in
`dap_adapter.rs`, outside `src/`) derives a short and a long human-readable
description from a core status and an optional program-counter value. -/
def short_long_status (status : CoreStatus) (pc : Option Nat) : String × String :=
  match status with
  | .running => ("continued", "Core is running")
  | .sleeping => ("sleeping", "Core is sleeping")
  | .halted _ =>
    match pc with
    | some p => ("halted", "Core halted at address " ++ toString p)
    | none => ("halted", "Core halted")
  | .lockedUp => ("lockedup", "Core is in LOCKUP status")
  | .unknown => ("unknown", "Core status is unknown")

/-- The state of the DAP adapter visible to this core: the configuration
handshake flag, the "all cores halted" flag, and whether sending an event
over the transport succeeds (`send_event` is fallible in the source). -/
structure Adapter where
  configuration_is_done : Bool
  all_cores_halted : Bool
  sendOk : Bool
deriving DecidableEq

/-- The hardware core as seen by one poll: the outcome of `core.status()`,
the outcome of reading the program-counter register, and the core id. -/
structure HwCore where
  statusResult : Except String CoreStatus
  pcResult : Option Nat
  coreId : Nat

instance {ε α : Type} [DecidableEq ε] [DecidableEq α] : DecidableEq (Except ε α) := fun x y =>
  match x, y with
  | .ok a, .ok b =>
    if h : a = b then .isTrue (congrArg Except.ok h)
    else .isFalse (fun hh => h (Except.ok.inj hh))
  | .error a, .error b =>
    if h : a = b then .isTrue (congrArg Except.error h)
    else .isFalse (fun hh => h (Except.error.inj hh))
  | .ok _, .error _ => .isFalse (fun hh => Except.noConfusion hh)
  | .error _, .ok _ => .isFalse (fun hh => Except.noConfusion hh)

/-- The complete observable outcome of one `poll_core` call: the returned
value, the cache afterwards, the events emitted, and how many hardware
status reads / program-counter reads were performed. -/
structure PollOut where
  result : Except String CoreStatus
  cache : CoreData
  events : List Event
  statusReads : Nat
  pcReads : Nat
deriving DecidableEq

/-- `CoreHandle::poll_core`: gate on `configuration_is_done`; read the
hardware status; on read failure cache `Unknown` and propagate; on success
compare against `last_known_status`, emit the appropriate event on a
change, fail on `LockedUp`/`Unknown` (returning before the cache update),
and otherwise unconditionally update the cache to the observed status. -/
def poll_core (hw : HwCore) (ad : Adapter) (cd : CoreData) : PollOut :=
  if ad.configuration_is_done then
    match hw.statusResult with
    | .ok status =>
      if status = cd.last_known_status then
        -- no state change: fall through to the unconditional cache update
        { result := .ok status
          cache := { cd with last_known_status := status }
          events := [], statusReads := 1, pcReads := 0 }
      else
        match status with
        | .running | .sleeping =>
          if ad.sendOk then
            { result := .ok status
              cache := { cd with last_known_status := status }
              events := [.continued true hw.coreId]
              statusReads := 1, pcReads := 0 }
          else
            { result := .error "failed to send continued event"
              cache := cd, events := [], statusReads := 1, pcReads := 0 }
        | .halted _ =>
          if cd.last_known_status = .halted .step then
            -- suppressed notification; cache still updated below
            { result := .ok status
              cache := { cd with last_known_status := status }
              events := [], statusReads := 1, pcReads := 0 }
          else
            if ad.sendOk then
              { result := .ok status
                cache := { cd with last_known_status := status }
                events := [.stopped (short_long_status status hw.pcResult).1
                  (short_long_status status hw.pcResult).2
                  hw.coreId false ad.all_cores_halted]
                statusReads := 1, pcReads := 1 }
            else
              { result := .error "failed to send stopped event"
                cache := cd, events := [], statusReads := 1, pcReads := 1 }
        | .lockedUp =>
          -- show_message, then return Err before the cache update
          { result := .error (short_long_status .lockedUp none).2
            cache := cd
            events := [.showMessage .error (short_long_status .lockedUp none).2]
            statusReads := 1, pcReads := 0 }
        | .unknown =>
          if ad.sendOk then
            { result := .error "Unknown Device status reveived from Probe-rs"
              cache := cd
              events := [.errorResponse "Unknown Device status reveived from Probe-rs"]
              statusReads := 1, pcReads := 0 }
          else
            { result := .error "failed to send error response"
              cache := cd, events := [], statusReads := 1, pcReads := 0 }
    | .error e =>
      { result := .error e
        cache := { cd with last_known_status := .unknown }
        events := [], statusReads := 1, pcReads := 0 }
  else
    { result := .ok .unknown, cache := cd, events := [], statusReads := 0, pcReads := 0 }

/-- `CoreHandle::reset_core_status`: force the cached status to `Running`
and clear the adapter's `all_cores_halted` flag, emitting nothing. -/
def reset_core_status (ad : Adapter) (cd : CoreData) : Adapter × CoreData :=
  ({ ad with all_cores_halted := false }, { cd with last_known_status := .running })

/-- `CoreHandle::get_stackframe`: first cached stack frame with the given id. -/
def get_stackframe (cd : CoreData) (id : Int) : Option StackFrame :=
  cd.stack_frames.find? (fun frame => frame.id = id)

/-! ## Breakpoint lifecycle -/

/-- `probe_rs::debug::VerifiedBreakpoint`: the resolved address and source
location returned by the symbol resolver. -/
structure VerifiedBreakpoint where
  address : Nat
  source_location : SourceLocation
deriving DecidableEq

/-- `probe_rs::debug::debug_info::DebugInfo`, reduced to the one capability
this core consumes: `get_breakpoint_location (path, line, column)` returns a
resolved breakpoint or a resolution failure. -/
structure DebugInfo where
  get_breakpoint_location : String → Nat → Option Nat → Except String VerifiedBreakpoint

/-- Failure oracle for the hardware breakpoint operations of `probe_rs::Core`:
whether `set_hw_breakpoint` / `clear_hw_breakpoint` fails at a given address. -/
structure HwOracle where
  failSet : Nat → Bool
  failClear : Nat → Bool

/-- The state a breakpoint operation can mutate: the hardware breakpoint
slots currently programmed, and the session cache. -/
structure BpState where
  installed : List Nat
  cache : CoreData
deriving DecidableEq

/-- Result of a breakpoint operation: the returned value and the post-state
(the Rust methods mutate `self` even when they return `Err`). -/
structure BpOut (α : Type) where
  result : Except String α
  state : BpState

/-- `probe_rs::Core::set_hw_breakpoint`: program a hardware slot. -/
def set_hw_breakpoint (hw : HwOracle) (st : BpState) (address : Nat) : BpOut Unit :=
  if hw.failSet address then ⟨.error "set_hw_breakpoint failed", st⟩
  else ⟨.ok (), { st with installed := st.installed ++ [address] }⟩

/-- `probe_rs::Core::clear_hw_breakpoint`: release a hardware slot. -/
def clear_hw_breakpoint (hw : HwOracle) (st : BpState) (address : Nat) : BpOut Unit :=
  if hw.failClear address then ⟨.error "clear_hw_breakpoint failed", st⟩
  else ⟨.ok (), { st with installed := st.installed.erase address }⟩

/-- `CoreHandle::set_breakpoint`: install the hardware breakpoint, then
append the record to the cache; on hardware failure record nothing. -/
def set_breakpoint (hw : HwOracle) (st : BpState) (address : Nat)
    (breakpoint_type : BreakpointType) : BpOut Unit :=
  match set_hw_breakpoint hw st address with
  | ⟨.error e, st'⟩ => ⟨.error e, st'⟩
  | ⟨.ok _, st'⟩ =>
    ⟨.ok (), { st' with cache := { st'.cache with
      breakpoints := st'.cache.breakpoints ++ [⟨breakpoint_type, address⟩] } }⟩

/-- The cache-side removal of `CoreHandle::clear_breakpoint`: find the first
entry at the address and remove it; no matching entry is a silent no-op. -/
def removeFirstAt : List ActiveBreakpoint → Nat → List ActiveBreakpoint
  | [], _ => []
  | b :: rest, a => if b.address = a then rest else b :: removeFirstAt rest a

/-- `CoreHandle::clear_breakpoint`: clear the hardware breakpoint (hardware
failure propagates with the cache untouched), then remove the first matching
cache entry, if any. -/
def clear_breakpoint (hw : HwOracle) (st : BpState) (address : Nat) : BpOut Unit :=
  match clear_hw_breakpoint hw st address with
  | ⟨.error e, st'⟩ => ⟨.error e, st'⟩
  | ⟨.ok _, st'⟩ =>
    ⟨.ok (), { st' with cache := { st'.cache with
      breakpoints := removeFirstAt st'.cache.breakpoints address } }⟩

/-- The filter of `CoreHandle::clear_breakpoints`: with an explicit kind,
compare for equality; with `None`, match only the `SourceBreakpoint` variant. -/
def matchesFilter (breakpoint_type : Option BreakpointType) (b : ActiveBreakpoint) : Bool :=
  match breakpoint_type with
  | some t => b.breakpoint_type = t
  | none =>
    match b.breakpoint_type with
    | .sourceBreakpoint _ _ => true
    | _ => false

/-- The loop of `CoreHandle::clear_breakpoints`: clear each collected
address in turn, aborting on the first failure. -/
def clearLoop (hw : HwOracle) (st : BpState) : List Nat → BpOut Unit
  | [] => ⟨.ok (), st⟩
  | a :: rest =>
    match clear_breakpoint hw st a with
    | ⟨.error e, st'⟩ => ⟨.error e, st'⟩
    | ⟨.ok _, st'⟩ => clearLoop hw st' rest

/-- `CoreHandle::clear_breakpoints`: collect the addresses of the entries
matching the kind filter, then clear each in turn. -/
def clear_breakpoints (hw : HwOracle) (st : BpState)
    (breakpoint_type : Option BreakpointType) : BpOut Unit :=
  clearLoop hw st
    ((st.cache.breakpoints.filter (matchesFilter breakpoint_type)).map (·.address))

/-- `CoreHandle::verify_and_set_breakpoint`: resolve the requested location
through the symbol resolver (failure yields the reduce-optimization advice),
then install the resolved address as a source breakpoint. -/
def verify_and_set_breakpoint (hw : HwOracle) (di : DebugInfo) (st : BpState)
    (source_path : String) (requested_breakpoint_line : Nat)
    (requested_breakpoint_column : Option Nat) (requested_source : Source) :
    BpOut VerifiedBreakpoint :=
  match di.get_breakpoint_location source_path requested_breakpoint_line
      requested_breakpoint_column with
  | .error e =>
    ⟨.error ("Cannot set breakpoint here. Try reducing compile time-, and link time-, optimization in your build configuration, or choose a different source location: " ++ e), st⟩
  | .ok vb =>
    match set_breakpoint hw st vb.address
        (.sourceBreakpoint requested_source vb.source_location) with
    | ⟨.error e, st'⟩ => ⟨.error e, st'⟩
    | ⟨.ok _, st'⟩ => ⟨.ok vb, st'⟩

/-- Rendering of an optional value inside a diagnostic message. -/
def optString : Option String → String
  | none => "None"
  | some s => "Some(" ++ s ++ ")"

/-- Rendering of a source location inside the recompute error message. -/
def locString (sl : SourceLocation) : String :=
  "SourceLocation(line=" ++ (match sl.line with | none => "None" | some n => toString n)
    ++ ", file=" ++ optString sl.file ++ ", directory=" ++ optString sl.directory ++ ")"

/-- Rendering of a source descriptor inside the recompute error message. -/
def sourceString (s : Source) : String :=
  "Source(name=" ++ optString s.name ++ ", path=" ++ optString s.path ++ ")"

/-- Column normalization of `recompute_breakpoints`: a left-edge column maps
to 0, a concrete column to itself. -/
def columnToNat : ColumnType → Nat
  | .leftEdge => 0
  | .column c => c

/-- The loop body of `CoreHandle::recompute_breakpoints`, iterating over the
snapshot of source-kind breakpoint records: clear the old hardware address
(propagating hardware failure), then — when the stored location has a
combined path — re-resolve and re-set it, wrapping a resolution failure in a
single descriptive error; a location with no combined path is skipped after
the clear. -/
def recomputeLoop (hw : HwOracle) (di : DebugInfo) (st : BpState) :
    List ActiveBreakpoint → BpOut Unit
  | [] => ⟨.ok (), st⟩
  | b :: rest =>
    match clear_breakpoint hw st b.address with
    | ⟨.error e, st'⟩ => ⟨.error e, st'⟩
    | ⟨.ok _, st'⟩ =>
      match b.breakpoint_type with
      | .sourceBreakpoint source source_location =>
        match source_location.combined_path with
        | none => recomputeLoop hw di st' rest
        | some requested_path =>
          match verify_and_set_breakpoint hw di st' requested_path
              (source_location.line.getD 0)
              (source_location.column.map columnToNat) source with
          | ⟨.error e, st''⟩ =>
            ⟨.error ("Failed to recompute breakpoint at " ++ locString source_location
              ++ " in " ++ sourceString source ++ ". Error: " ++ e), st''⟩
          | ⟨.ok _, st''⟩ => recomputeLoop hw di st'' rest
      | .instructionBreakpoint => recomputeLoop hw di st' rest

/-- Whether a breakpoint record is of the `SourceBreakpoint` kind. -/
def isSourceBp (b : ActiveBreakpoint) : Bool :=
  match b.breakpoint_type with
  | .sourceBreakpoint _ _ => true
  | _ => false

/-- `CoreHandle::recompute_breakpoints`: iterate over a snapshot of the
cached records restricted to source-kind breakpoints. -/
def recompute_breakpoints (hw : HwOracle) (di : DebugInfo) (st : BpState) : BpOut Unit :=
  recomputeLoop hw di st (st.cache.breakpoints.filter isSourceBp)

/-! ## RTT logging-channel attachment -/

/-- The external collaborators of `attach_to_rtt`: the outcome of opening
the binary image, of the control-block symbol search, of attaching the RTT
transport at an exact region, of constructing the active target, and whether
setting a channel's buffering mode succeeds. -/
structure RttEnv where
  fileOpen : Except String Unit
  rttSymbol : Option Nat
  attachRegion : Nat → Except String Unit
  newTarget : Except String RttActiveTarget

/-- Per-channel-number success oracle for `UpChannel::set_mode`. -/
structure ModeOracle where
  setModeOk : Nat → Bool

/-- The `File::open → get_rtt_symbol → Rtt::attach_region →
RttActiveTarget::new` chain that `attach_to_rtt` matches on. -/
def attachChain (env : RttEnv) : Except String RttActiveTarget :=
  match env.fileOpen with
  | .error e => .error ("Error attempting to attach to RTT: " ++ e)
  | .ok _ =>
    match env.rttSymbol with
    | none => .error "No RTT control block found in ELF file"
    | some rtt_header_address =>
      match env.attachRegion rtt_header_address with
      | .error e => .error ("Error attempting to attach to RTT: " ++ e)
      | .ok _ => env.newTarget

/-- Partial outcome of the channel registration loop: the constructed
descriptor list (lost when the loop aborts), plus the window-registration
events and hardware mode changes already performed. -/
structure ChanOut where
  result : Except String (List DebuggerRttChannel)
  events : List Event
  modeSets : List (Nat × ChannelMode)

/-- The channel registration loop of `attach_to_rtt`: for every channel with
an up channel, force defmt channels to block-if-full (a set-mode failure
propagates, abandoning the descriptors but keeping effects already done),
push a descriptor with `has_client_window = false` and register the window. -/
def channelLoop (mo : ModeOracle) : List RttActiveChannel → ChanOut
  | [] => ⟨.ok [], [], []⟩
  | c :: rest =>
    match c.up_channel with
    | none => channelLoop mo rest
    | some up =>
      if c.data_format = .defmt then
        if mo.setModeOk up.number then
          let out := channelLoop mo rest
          ⟨out.result.map (⟨up.number, false⟩ :: ·),
            .rttWindow up.number c.channel_name c.data_format :: out.events,
            (up.number, .blockIfFull) :: out.modeSets⟩
        else ⟨.error "failed to set channel mode", [], []⟩
      else
        let out := channelLoop mo rest
        ⟨out.result.map (⟨up.number, false⟩ :: ·),
          .rttWindow up.number c.channel_name c.data_format :: out.events,
          out.modeSets⟩

/-- The observable outcome of one `attach_to_rtt` call. -/
structure AttachOut where
  result : Except String Unit
  cache : CoreData
  events : List Event
  modeSets : List (Nat × ChannelMode)
deriving DecidableEq

/-- `CoreHandle::attach_to_rtt`: attach through `attachChain`; on success of
the chain register the channels and replace the cached connection; a chain
failure is swallowed (warning only, `Ok(())`, cache untouched); a set-mode
failure inside the loop propagates with the cache untouched. -/
def attach_to_rtt (env : RttEnv) (mo : ModeOracle) (cd : CoreData) : AttachOut :=
  match attachChain env with
  | .ok target_rtt =>
    let out := channelLoop mo target_rtt.active_channels
    match out.result with
    | .ok debugger_rtt_channels =>
      { result := .ok ()
        cache := { cd with rtt_connection := some ⟨target_rtt, debugger_rtt_channels⟩ }
        events := out.events
        modeSets := out.modeSets }
    | .error e =>
      { result := .error e, cache := cd, events := out.events, modeSets := out.modeSets }
  | .error _ =>
    { result := .ok (), cache := cd, events := [], modeSets := [] }

/-! ## Concrete sample data used by witnesses and counterexamples -/

/-- Whether an `Except` value is a success. -/
def exceptIsOk {ε α : Type} : Except ε α → Bool
  | .ok _ => true
  | .error _ => false

/-- A session cache with cached status `Running` and nothing else cached. -/
def cdRunning : CoreData :=
  { core_index := 0, last_known_status := .running, stack_frames := []
    breakpoints := [], rtt_connection := none }

/-- An adapter that has completed configuration and sends successfully. -/
def adDone : Adapter :=
  { configuration_is_done := true, all_cores_halted := false, sendOk := true }

/-- An adapter that has not completed its configuration handshake. -/
def adNotDone : Adapter :=
  { configuration_is_done := false, all_cores_halted := false, sendOk := true }

/-- A hardware core whose status read observes `LockedUp`. -/
def hwLockedUp : HwCore := { statusResult := .ok .lockedUp, pcResult := none, coreId := 0 }

/-- A hardware core whose status read observes `Halted(Breakpoint)`. -/
def hwHaltedBp : HwCore :=
  { statusResult := .ok (.halted .breakpoint), pcResult := some 134217984, coreId := 0 }

/-- A hardware core whose status read observes `Running`. -/
def hwRunning : HwCore := { statusResult := .ok .running, pcResult := none, coreId := 0 }

/-! ## Claim theorems: status tracker -/

/-- C4: before the protocol session has completed its configuration
handshake, `poll_core` performs no hardware status read and no
program-counter read, mutates no field of the session cache, emits nothing,
and returns `Unknown` successfully. -/
theorem poll_core_before_configuration_done (hw : HwCore) (ad : Adapter) (cd : CoreData)
    (h : ad.configuration_is_done = false) :
    poll_core hw ad cd =
      { result := .ok .unknown, cache := cd, events := [], statusReads := 0, pcReads := 0 } := by
  simp [poll_core, h]

/-- Witness for C4 at a concrete adapter, hardware core and cache. -/
theorem poll_core_before_configuration_done_witness :
    adNotDone.configuration_is_done = false ∧
    poll_core hwRunning adNotDone cdRunning =
      { result := .ok .unknown, cache := cdRunning, events := [], statusReads := 0, pcReads := 0 } :=
  ⟨rfl, poll_core_before_configuration_done hwRunning adNotDone cdRunning rfl⟩

/-- C5: when the hardware status equals the cached status, polling twice
with no intervening hardware state change emits zero protocol notifications
and leaves the session cache unchanged (after either poll). -/
theorem poll_core_idempotent (hw : HwCore) (ad : Adapter) (cd : CoreData)
    (h : hw.statusResult = .ok cd.last_known_status) :
    (poll_core hw ad cd).events = [] ∧
    (poll_core hw ad cd).cache = cd ∧
    (poll_core hw ad (poll_core hw ad cd).cache).events = [] ∧
    (poll_core hw ad (poll_core hw ad cd).cache).cache = cd := by
  cases hconf : ad.configuration_is_done
  · simp [poll_core, hconf]
  · simp [poll_core, hconf, h]

/-- Witness for C5: cached `Running`, hardware observes `Running` twice. -/
theorem poll_core_idempotent_witness :
    hwRunning.statusResult = .ok cdRunning.last_known_status ∧
    ((poll_core hwRunning adDone cdRunning).events = [] ∧
     (poll_core hwRunning adDone cdRunning).cache = cdRunning ∧
     (poll_core hwRunning adDone (poll_core hwRunning adDone cdRunning).cache).events = [] ∧
     (poll_core hwRunning adDone (poll_core hwRunning adDone cdRunning).cache).cache = cdRunning) :=
  ⟨rfl, poll_core_idempotent hwRunning adDone cdRunning rfl⟩

/-- C3: on a successful poll observing `Halted(X)` different from the cached
status, the cache is set to the observed `Halted(X)`; exactly one `stopped`
event is emitted unless the cached status was exactly `Halted(Step)`, in
which case zero events are emitted. -/
theorem poll_core_halt_transition (hw : HwCore) (ad : Adapter) (cd : CoreData) (x : HaltReason)
    (hconf : ad.configuration_is_done = true)
    (hst : hw.statusResult = .ok (.halted x))
    (hne : cd.last_known_status ≠ .halted x)
    (hok : exceptIsOk (poll_core hw ad cd).result = true) :
    (poll_core hw ad cd).result = .ok (.halted x) ∧
    (poll_core hw ad cd).cache = { cd with last_known_status := .halted x } ∧
    (cd.last_known_status = .halted .step → (poll_core hw ad cd).events = []) ∧
    (cd.last_known_status ≠ .halted .step →
      (poll_core hw ad cd).events =
        [.stopped (short_long_status (.halted x) hw.pcResult).1
          (short_long_status (.halted x) hw.pcResult).2
          hw.coreId false ad.all_cores_halted]) := by
  have hne' : CoreStatus.halted x ≠ cd.last_known_status := fun hh => hne hh.symm
  by_cases hstep : cd.last_known_status = CoreStatus.halted .step
  · simp [poll_core, hconf, hst, hne', hstep]
  · cases hsend : ad.sendOk
    · rw [poll_core] at hok
      simp [hconf, hst, hne', hstep, hsend, exceptIsOk] at hok
    · simp [poll_core, hconf, hst, hne', hstep, hsend]

/-- Witness for C3: cached `Running`, hardware observes
`Halted(Breakpoint)`; exactly one `stopped` event is emitted. -/
theorem poll_core_halt_transition_witness :
    adDone.configuration_is_done = true ∧
    hwHaltedBp.statusResult = .ok (.halted .breakpoint) ∧
    cdRunning.last_known_status ≠ .halted .breakpoint ∧
    exceptIsOk (poll_core hwHaltedBp adDone cdRunning).result = true ∧
    ((poll_core hwHaltedBp adDone cdRunning).result = .ok (.halted .breakpoint) ∧
     (poll_core hwHaltedBp adDone cdRunning).cache =
       { cdRunning with last_known_status := .halted .breakpoint } ∧
     (cdRunning.last_known_status = .halted .step →
       (poll_core hwHaltedBp adDone cdRunning).events = []) ∧
     (cdRunning.last_known_status ≠ .halted .step →
       (poll_core hwHaltedBp adDone cdRunning).events =
         [.stopped (short_long_status (.halted .breakpoint) hwHaltedBp.pcResult).1
           (short_long_status (.halted .breakpoint) hwHaltedBp.pcResult).2
           hwHaltedBp.coreId false adDone.all_cores_halted])) :=
  ⟨rfl, rfl, by decide, by decide,
    poll_core_halt_transition hwHaltedBp adDone cdRunning .breakpoint rfl rfl (by decide)
      (by decide)⟩

/-- C1 counterexample: with cached status `Running` and an observed
`LockedUp`, `poll_core` does terminate with an error, but the cached
`last_known_status` stays `Running` — it is not updated to the observed
value, so the claim's conjunction fails at this input. -/
theorem poll_core_lockedup_counterexample :
    exceptIsOk (poll_core hwLockedUp adDone cdRunning).result = false ∧
    (poll_core hwLockedUp adDone cdRunning).cache.last_known_status = .running ∧
    (poll_core hwLockedUp adDone cdRunning).cache.last_known_status ≠ .lockedUp := by
  decide

/-- C1 (amended): after configuration is done, (a) a successful status read
observing `LockedUp` or `Unknown` that differs from the cached status makes
`poll_core` fail, with the whole cache left unchanged (in particular
`last_known_status` is not updated to the observed value); (b) an observed
`LockedUp`/`Unknown` equal to the cached status returns success; (c) a
status read failure sets the cached status to `Unknown` and propagates the
error. -/
theorem poll_core_lockedup_unknown (hw : HwCore) (ad : Adapter) (cd : CoreData)
    (hconf : ad.configuration_is_done = true) :
    (∀ s, hw.statusResult = .ok s → (s = .lockedUp ∨ s = .unknown) →
      s ≠ cd.last_known_status →
      exceptIsOk (poll_core hw ad cd).result = false ∧ (poll_core hw ad cd).cache = cd) ∧
    (∀ s, hw.statusResult = .ok s → (s = .lockedUp ∨ s = .unknown) →
      s = cd.last_known_status →
      (poll_core hw ad cd).result = .ok s ∧ (poll_core hw ad cd).cache = cd) ∧
    (∀ e, hw.statusResult = .error e →
      (poll_core hw ad cd).result = .error e ∧
      (poll_core hw ad cd).cache.last_known_status = .unknown) := by
  refine ⟨?_, ?_, ?_⟩
  · rintro s hs (rfl | rfl) hne <;>
      cases hsend : ad.sendOk <;>
      simp [poll_core, hconf, hs, hsend, hne, exceptIsOk]
  · rintro s hs hv heq
    subst heq
    simp [poll_core, hconf, hs]
  · intro e he
    simp [poll_core, hconf, he]

/-- Witness for C1 (amended) at a concrete changed-state `LockedUp` poll. -/
theorem poll_core_lockedup_unknown_witness :
    adDone.configuration_is_done = true ∧
    hwLockedUp.statusResult = .ok .lockedUp ∧
    CoreStatus.lockedUp ≠ cdRunning.last_known_status ∧
    exceptIsOk (poll_core hwLockedUp adDone cdRunning).result = false ∧
    (poll_core hwLockedUp adDone cdRunning).cache = cdRunning :=
  ⟨rfl, rfl, by decide,
    (poll_core_lockedup_unknown hwLockedUp adDone cdRunning rfl).1 .lockedUp rfl
      (Or.inl rfl) (by decide)⟩

/-! ## Claim theorems: logging-channel coordinator -/

/-- A single defmt up channel with channel number 0. -/
def defmtChannel : RttActiveChannel :=
  { up_channel := some { number := 0 }, data_format := .defmt, channel_name := "defmt" }

/-- An RTT target exposing exactly the one defmt up channel. -/
def targetDefmt : RttActiveTarget := { active_channels := [defmtChannel] }

/-- An environment whose whole attach chain succeeds, yielding `targetDefmt`. -/
def envDefmt : RttEnv :=
  { fileOpen := .ok (), rttSymbol := some 8192
    attachRegion := fun _ => .ok (), newTarget := .ok targetDefmt }

/-- An environment whose binary has no logging-control-block symbol. -/
def envNoSymbol : RttEnv :=
  { fileOpen := .ok (), rttSymbol := none
    attachRegion := fun _ => .ok (), newTarget := .ok targetDefmt }

/-- A mode oracle on which every `set_mode` call fails. -/
def moAllFail : ModeOracle := { setModeOk := fun _ => false }

/-- A mode oracle on which every `set_mode` call succeeds. -/
def moAllOk : ModeOracle := { setModeOk := fun _ => true }

/-- A previously cached logging connection, to exercise replacement. -/
def oldConnection : RttConnection :=
  { target_rtt := { active_channels := [] }
    debugger_rtt_channels := [{ channel_number := 7, has_client_window := true }] }

/-- A session cache holding `oldConnection`. -/
def cdWithOldConn : CoreData := { cdRunning with rtt_connection := some oldConnection }

/-- C2 counterexample: with a fully successful attach chain and one defmt up
channel whose `set_mode` fails, `attach_to_rtt` returns a failure to its
caller (the `?` on `set_mode` propagates), so the claim that it never
propagates a failure is false at this input. -/
theorem attach_to_rtt_counterexample :
    exceptIsOk (attach_to_rtt envDefmt moAllFail cdRunning).result = false ∧
    (attach_to_rtt envDefmt moAllFail cdRunning).cache = cdRunning := by
  decide

/-- C2 (amended): any failure of the attach chain itself (file open, missing
control-block symbol, transport attach, target construction) is swallowed:
`attach_to_rtt` returns success, emits nothing, changes no hardware mode and
leaves the cache exactly as it was; in particular a binary with no
logging-control-block symbol yields success with the connection left as it
was.  A failure while forcing a defmt channel's buffering mode, however,
propagates an error — though even then the cached connection is unchanged. -/
theorem attach_to_rtt_failure_behavior (env : RttEnv) (mo : ModeOracle) (cd : CoreData) :
    ((∃ e, attachChain env = .error e) →
      attach_to_rtt env mo cd =
        { result := .ok (), cache := cd, events := [], modeSets := [] }) ∧
    (env.rttSymbol = none → env.fileOpen = .ok () →
      attach_to_rtt env mo cd =
        { result := .ok (), cache := cd, events := [], modeSets := [] }) ∧
    (exceptIsOk (attach_to_rtt env mo cd).result = false →
      (attach_to_rtt env mo cd).cache = cd) := by
  refine ⟨?_, ?_, ?_⟩
  · rintro ⟨e, he⟩
    simp [attach_to_rtt, he]
  · intro h1 h2
    simp [attach_to_rtt, attachChain, h1, h2]
  · intro hfail
    cases hch : attachChain env with
    | error e => simp [attach_to_rtt, hch]
    | ok t =>
      cases hr : (channelLoop mo t.active_channels).result with
      | ok chans => simp [attach_to_rtt, hch, hr, exceptIsOk] at hfail
      | error e => simp [attach_to_rtt, hch, hr]

/-- Witness for C2 (amended): no control-block symbol, prior connection
cached; attach returns success and the prior connection is untouched. -/
theorem attach_to_rtt_failure_behavior_witness :
    attach_to_rtt envNoSymbol moAllOk cdWithOldConn =
      { result := .ok (), cache := cdWithOldConn, events := [], modeSets := [] } :=
  (attach_to_rtt_failure_behavior envNoSymbol moAllOk cdWithOldConn).1
    ⟨"No RTT control block found in ELF file", rfl⟩

/-- C9: on a successful attach with exactly one up channel in defmt format,
the cached connection is replaced (whatever it was before) by one holding
exactly one channel descriptor with `has_client_window = false`, the
channel's hardware buffering mode is forced to block-if-full, and one
logging window is registered. -/
theorem attach_to_rtt_defmt_success (env : RttEnv) (mo : ModeOracle) (cd : CoreData)
    (target : RttActiveTarget) (n : Nat) (name : String)
    (htarget : target.active_channels =
      [{ up_channel := some { number := n }, data_format := .defmt, channel_name := name }])
    (hchain : attachChain env = .ok target)
    (hmode : mo.setModeOk n = true) :
    (attach_to_rtt env mo cd).result = .ok () ∧
    (attach_to_rtt env mo cd).cache.rtt_connection =
      some { target_rtt := target
             debugger_rtt_channels := [{ channel_number := n, has_client_window := false }] } ∧
    (attach_to_rtt env mo cd).modeSets = [(n, .blockIfFull)] ∧
    (attach_to_rtt env mo cd).events = [.rttWindow n name .defmt] := by
  simp [attach_to_rtt, hchain, htarget, channelLoop, hmode, Except.map]

/-- Witness for C9: the concrete defmt environment, with a stale connection
in the cache that gets replaced. -/
theorem attach_to_rtt_defmt_success_witness :
    targetDefmt.active_channels =
      [{ up_channel := some { number := 0 }, data_format := .defmt, channel_name := "defmt" }] ∧
    attachChain envDefmt = .ok targetDefmt ∧
    moAllOk.setModeOk 0 = true ∧
    ((attach_to_rtt envDefmt moAllOk cdWithOldConn).result = .ok () ∧
     (attach_to_rtt envDefmt moAllOk cdWithOldConn).cache.rtt_connection =
       some { target_rtt := targetDefmt
              debugger_rtt_channels := [{ channel_number := 0, has_client_window := false }] } ∧
     (attach_to_rtt envDefmt moAllOk cdWithOldConn).modeSets = [(0, .blockIfFull)] ∧
     (attach_to_rtt envDefmt moAllOk cdWithOldConn).events = [.rttWindow 0 "defmt" .defmt]) :=
  ⟨rfl, rfl, rfl,
    attach_to_rtt_defmt_success envDefmt moAllOk cdWithOldConn targetDefmt 0 "defmt" rfl rfl rfl⟩

/-! ## Helper lemmas about the breakpoint cache -/

theorem removeFirstAt_append_not_mem (l : List ActiveBreakpoint) (t : BreakpointType) (a : Nat)
    (h : a ∉ l.map ActiveBreakpoint.address) :
    removeFirstAt (l ++ [⟨t, a⟩]) a = l := by
  induction l with
  | nil => simp [removeFirstAt]
  | cons b rest ih =>
    have h1 : ¬ b.address = a := fun hh => h (by simp [hh.symm])
    have h2 : a ∉ rest.map ActiveBreakpoint.address := fun hh => h (by simp [hh])
    simp [removeFirstAt, h1, ih h2]

theorem removeFirstAt_not_mem (l : List ActiveBreakpoint) (a : Nat)
    (h : a ∉ l.map ActiveBreakpoint.address) :
    removeFirstAt l a = l := by
  induction l with
  | nil => rfl
  | cons b rest ih =>
    have h1 : ¬ b.address = a := fun hh => h (by simp [hh.symm])
    have h2 : a ∉ rest.map ActiveBreakpoint.address := fun hh => h (by simp [hh])
    simp [removeFirstAt, h1, ih h2]

theorem removeFirstAt_first (pre : List ActiveBreakpoint) (b : ActiveBreakpoint)
    (post : List ActiveBreakpoint) (a : Nat)
    (hb : b.address = a) (hpre : a ∉ pre.map ActiveBreakpoint.address) :
    removeFirstAt (pre ++ b :: post) a = pre ++ post := by
  induction pre with
  | nil => simp [removeFirstAt, hb]
  | cons p rest ih =>
    have h1 : ¬ p.address = a := fun hh => hpre (by simp [hh.symm])
    have h2 : a ∉ rest.map ActiveBreakpoint.address := fun hh => hpre (by simp [hh])
    simp [removeFirstAt, h1, ih h2]

theorem mem_removeFirstAt (x : ActiveBreakpoint) (l : List ActiveBreakpoint) (a : Nat)
    (hx : x ∈ l) (hne : x.address ≠ a) :
    x ∈ removeFirstAt l a := by
  induction l with
  | nil => cases hx
  | cons b rest ih =>
    by_cases hb : b.address = a
    · rcases List.mem_cons.mp hx with rfl | hmem
      · exact absurd hb hne
      · simpa [removeFirstAt, hb] using hmem
    · rcases List.mem_cons.mp hx with rfl | hmem
      · simp [removeFirstAt, hb]
      · simp [removeFirstAt, hb, ih hmem]

theorem mem_foldl_removeFirstAt (x : ActiveBreakpoint) (as : List Nat)
    (l : List ActiveBreakpoint) (hx : x ∈ l) (hna : ∀ a ∈ as, x.address ≠ a) :
    x ∈ as.foldl removeFirstAt l := by
  induction as generalizing l with
  | nil => simpa using hx
  | cons a rest ih =>
    have h1 : x.address ≠ a := hna a (by simp)
    have h2 : ∀ y ∈ rest, x.address ≠ y := fun y hy => hna y (by simp [hy])
    simpa [List.foldl_cons] using ih (removeFirstAt l a) (mem_removeFirstAt x l a hx h1) h2

theorem foldl_removeFirstAt_cons (b : ActiveBreakpoint) (ts : List Nat)
    (init : List ActiveBreakpoint) (h : ∀ a ∈ ts, b.address ≠ a) :
    ts.foldl removeFirstAt (b :: init) = b :: ts.foldl removeFirstAt init := by
  induction ts generalizing init with
  | nil => rfl
  | cons a rest ih =>
    have hba : ¬ b.address = a := h a (by simp)
    have hrest : ∀ x ∈ rest, b.address ≠ x := fun x hx => h x (by simp [hx])
    simp [List.foldl_cons, removeFirstAt, hba, ih (removeFirstAt init a) hrest]

theorem matchesFilter_none_eq (b : ActiveBreakpoint) :
    matchesFilter none b = isSourceBp b := by
  cases b with
  | mk t a => cases t <;> rfl

theorem foldl_removeFirstAt_source (l : List ActiveBreakpoint)
    (hnodup : (l.map ActiveBreakpoint.address).Nodup) :
    ((l.filter isSourceBp).map ActiveBreakpoint.address).foldl removeFirstAt l
      = l.filter (fun b => !(isSourceBp b)) := by
  induction l with
  | nil => rfl
  | cons b rest ih =>
    rw [List.map_cons, List.nodup_cons] at hnodup
    obtain ⟨hb, hrest⟩ := hnodup
    cases hsrc : isSourceBp b
    · have hts : ∀ a ∈ (rest.filter isSourceBp).map ActiveBreakpoint.address,
          b.address ≠ a := by
        intro a ha
        rcases List.mem_map.mp ha with ⟨y, hy, rfl⟩
        intro hcontra
        exact hb (hcontra ▸ List.mem_map.mpr ⟨y, List.mem_of_mem_filter hy, rfl⟩)
      have hfilter : (b :: rest).filter isSourceBp = rest.filter isSourceBp := by
        simp [List.filter_cons, hsrc]
      have hfilter2 : (b :: rest).filter (fun x => !(isSourceBp x))
          = b :: rest.filter (fun x => !(isSourceBp x)) := by
        simp [List.filter_cons, hsrc]
      rw [hfilter, hfilter2, foldl_removeFirstAt_cons b _ rest hts, ih hrest]
    · have hfilter : (b :: rest).filter isSourceBp = b :: rest.filter isSourceBp := by
        simp [List.filter_cons, hsrc]
      have hfilter2 : (b :: rest).filter (fun x => !(isSourceBp x))
          = rest.filter (fun x => !(isSourceBp x)) := by
        simp [List.filter_cons, hsrc]
      have hhead : removeFirstAt (b :: rest) b.address = rest := by
        simp [removeFirstAt]
      rw [hfilter, hfilter2, List.map_cons, List.foldl_cons, hhead, ih hrest]

theorem clearLoop_ok (hw : HwOracle) (st : BpState) (as : List Nat)
    (hok : ∀ a ∈ as, hw.failClear a = false) :
    (clearLoop hw st as).result = .ok () ∧
    (clearLoop hw st as).state.cache.breakpoints =
      as.foldl removeFirstAt st.cache.breakpoints := by
  induction as generalizing st with
  | nil => simp [clearLoop]
  | cons a rest ih =>
    have ha : hw.failClear a = false := hok a (by simp)
    have hrest : ∀ x ∈ rest, hw.failClear x = false := fun x hx => hok x (by simp [hx])
    have := ih { installed := st.installed.erase a
                 cache := { st.cache with breakpoints := removeFirstAt st.cache.breakpoints a } }
      hrest
    simpa [clearLoop, clear_breakpoint, clear_hw_breakpoint, ha] using this

theorem clearLoop_abort (hw : HwOracle) (st : BpState) (pre : List Nat) (a : Nat)
    (post : List Nat) (hok : ∀ x ∈ pre, hw.failClear x = false)
    (hfail : hw.failClear a = true) :
    (clearLoop hw st (pre ++ a :: post)).result = .error "clear_hw_breakpoint failed" ∧
    (clearLoop hw st (pre ++ a :: post)).state.cache.breakpoints =
      pre.foldl removeFirstAt st.cache.breakpoints ∧
    (clearLoop hw st (pre ++ a :: post)).state.installed =
      pre.foldl List.erase st.installed := by
  induction pre generalizing st with
  | nil => simp [clearLoop, clear_breakpoint, clear_hw_breakpoint, hfail]
  | cons p rest ih =>
    have hp : hw.failClear p = false := hok p (by simp)
    have hrest : ∀ x ∈ rest, hw.failClear x = false := fun x hx => hok x (by simp [hx])
    have := ih { installed := st.installed.erase p
                 cache := { st.cache with breakpoints := removeFirstAt st.cache.breakpoints p } }
      hrest
    simpa [clearLoop, clear_breakpoint, clear_hw_breakpoint, hp] using this

theorem mem_foldl_erase (a : Nat) (as : List Nat) (l : List Nat)
    (ha : a ∈ l) (hna : ∀ x ∈ as, a ≠ x) :
    a ∈ as.foldl List.erase l := by
  induction as generalizing l with
  | nil => simpa using ha
  | cons x rest ih =>
    have h1 : a ≠ x := hna x (by simp)
    have h2 : ∀ y ∈ rest, a ≠ y := fun y hy => hna y (by simp [hy])
    have hmem : a ∈ l.erase x := (List.mem_erase_of_ne h1).mpr ha
    simpa [List.foldl_cons] using ih (l.erase x) hmem h2

/-! ## Claim theorems: breakpoint manager -/

/-- A hardware oracle on which every breakpoint operation succeeds. -/
def hwOk : HwOracle := { failSet := fun _ => false, failClear := fun _ => false }

/-- An empty breakpoint state over the running cache. -/
def stEmpty : BpState := { installed := [], cache := cdRunning }

/-- A sample DAP source descriptor. -/
def srcSample : Source := { name := some "main.c", path := some "/tmp/main.c" }

/-- A sample resolved source location for `/tmp/main.c:42`. -/
def locSample : SourceLocation :=
  { line := some 42, column := some (.column 3), file := some "main.c", directory := some "/tmp" }

/-- A non-source (transient) breakpoint record at address 5. -/
def bpOtherAt5 : ActiveBreakpoint := { breakpoint_type := .instructionBreakpoint, address := 5 }

/-- A source breakpoint record at the same address 5. -/
def bpSourceAt5 : ActiveBreakpoint :=
  { breakpoint_type := .sourceBreakpoint srcSample locSample, address := 5 }

/-- A state caching a non-source and a source record at the same address. -/
def stShared : BpState :=
  { installed := [5], cache := { cdRunning with breakpoints := [bpOtherAt5, bpSourceAt5] } }

/-- A source breakpoint record at address 300. -/
def bpSourceAt300 : ActiveBreakpoint :=
  { breakpoint_type := .sourceBreakpoint srcSample locSample, address := 300 }

/-- A source breakpoint record at address 400. -/
def bpSourceAt400 : ActiveBreakpoint :=
  { breakpoint_type := .sourceBreakpoint srcSample locSample, address := 400 }

/-- A state caching two source records and one transient record, all at
pairwise distinct addresses. -/
def stC7w : BpState :=
  { installed := [300, 5, 400]
    cache := { cdRunning with breakpoints := [bpSourceAt300, bpOtherAt5, bpSourceAt400] } }

/-- C6: a successful `set_breakpoint` followed by a successful
`clear_breakpoint` at the same (previously absent) address restores the
breakpoint set exactly, leaving no entry at that address; `clear_breakpoint`
removes only the first matching cache entry; and with no matching entry the
cache side is a silent no-op, not an error. -/
theorem set_then_clear_breakpoint :
    (∀ (hw : HwOracle) (st : BpState) (a : Nat) (t : BreakpointType),
      hw.failSet a = false → hw.failClear a = false →
      a ∉ st.cache.breakpoints.map ActiveBreakpoint.address →
      (set_breakpoint hw st a t).result = .ok () ∧
      (clear_breakpoint hw (set_breakpoint hw st a t).state a).result = .ok () ∧
      (clear_breakpoint hw (set_breakpoint hw st a t).state a).state.cache.breakpoints
        = st.cache.breakpoints ∧
      a ∉ ((clear_breakpoint hw (set_breakpoint hw st a t).state a).state.cache.breakpoints.map
            ActiveBreakpoint.address)) ∧
    (∀ (hw : HwOracle) (st : BpState) (a : Nat) (pre post : List ActiveBreakpoint)
        (b : ActiveBreakpoint),
      hw.failClear a = false →
      st.cache.breakpoints = pre ++ b :: post → b.address = a →
      a ∉ pre.map ActiveBreakpoint.address →
      (clear_breakpoint hw st a).result = .ok () ∧
      (clear_breakpoint hw st a).state.cache.breakpoints = pre ++ post) ∧
    (∀ (hw : HwOracle) (st : BpState) (a : Nat),
      hw.failClear a = false →
      a ∉ st.cache.breakpoints.map ActiveBreakpoint.address →
      (clear_breakpoint hw st a).result = .ok () ∧
      (clear_breakpoint hw st a).state.cache.breakpoints = st.cache.breakpoints) := by
  refine ⟨?_, ?_, ?_⟩
  · intro hw st a t hset hclear hnotin
    refine ⟨?_, ?_, ?_, ?_⟩ <;>
      simp [set_breakpoint, set_hw_breakpoint, clear_breakpoint, clear_hw_breakpoint,
        hset, hclear, removeFirstAt_append_not_mem _ t a hnotin, hnotin]
  · intro hw st a pre post b hclear hsplit hb hpre
    constructor
    · simp [clear_breakpoint, clear_hw_breakpoint, hclear]
    · simp [clear_breakpoint, clear_hw_breakpoint, hclear, hsplit,
        removeFirstAt_first pre b post a hb hpre]
  · intro hw st a hclear hnotin
    constructor
    · simp [clear_breakpoint, clear_hw_breakpoint, hclear]
    · simp [clear_breakpoint, clear_hw_breakpoint, hclear, removeFirstAt_not_mem _ a hnotin]

/-- Witness for C6: setting then clearing address 256 on the empty state. -/
theorem set_then_clear_breakpoint_witness :
    hwOk.failSet 256 = false ∧
    hwOk.failClear 256 = false ∧
    256 ∉ stEmpty.cache.breakpoints.map ActiveBreakpoint.address ∧
    ((set_breakpoint hwOk stEmpty 256 .instructionBreakpoint).result = .ok () ∧
     (clear_breakpoint hwOk (set_breakpoint hwOk stEmpty 256 .instructionBreakpoint).state
        256).result = .ok () ∧
     (clear_breakpoint hwOk (set_breakpoint hwOk stEmpty 256 .instructionBreakpoint).state
        256).state.cache.breakpoints = stEmpty.cache.breakpoints ∧
     256 ∉ ((clear_breakpoint hwOk (set_breakpoint hwOk stEmpty 256
            .instructionBreakpoint).state 256).state.cache.breakpoints.map
          ActiveBreakpoint.address)) :=
  ⟨rfl, rfl, by decide,
    set_then_clear_breakpoint.1 hwOk stEmpty 256 .instructionBreakpoint rfl rfl (by decide)⟩

/-- C7 counterexample: a non-source and a source record share address 5,
with the non-source record first; every hardware clear succeeds, yet
`clear_breakpoints None` removes the non-source record and the source record
survives — so the claim that exactly the source-kind entries are removed is
false at this input. -/
theorem clear_breakpoints_counterexample :
    (clear_breakpoints hwOk stShared none).result = .ok () ∧
    (clear_breakpoints hwOk stShared none).state.cache.breakpoints = [bpSourceAt5] ∧
    isSourceBp bpSourceAt5 = true ∧
    isSourceBp bpOtherAt5 = false := by
  decide

/-- C7 (amended): provided the cached breakpoint addresses are pairwise
distinct (the documented cache invariant), `clear_breakpoints None` with
all hardware clears succeeding removes exactly the source-kind entries, all
non-source entries surviving in order; and when a hardware clear fails
mid-iteration, the error propagates and every not-yet-processed matched
breakpoint is still installed: its record is still cached and its hardware
slot, if it was programmed, is still programmed. -/
theorem clear_breakpoints_none_removes_source :
    (∀ (hw : HwOracle) (st : BpState),
      (st.cache.breakpoints.map ActiveBreakpoint.address).Nodup →
      (∀ a, hw.failClear a = false) →
      (clear_breakpoints hw st none).result = .ok () ∧
      (clear_breakpoints hw st none).state.cache.breakpoints =
        st.cache.breakpoints.filter (fun b => !(isSourceBp b))) ∧
    (∀ (hw : HwOracle) (st : BpState) (pre : List ActiveBreakpoint) (b : ActiveBreakpoint)
        (post : List ActiveBreakpoint),
      (st.cache.breakpoints.map ActiveBreakpoint.address).Nodup →
      st.cache.breakpoints.filter (matchesFilter none) = pre ++ b :: post →
      (∀ x ∈ pre, hw.failClear x.address = false) →
      hw.failClear b.address = true →
      exceptIsOk (clear_breakpoints hw st none).result = false ∧
      ∀ x ∈ b :: post,
        x ∈ (clear_breakpoints hw st none).state.cache.breakpoints ∧
        (x.address ∈ st.installed →
          x.address ∈ (clear_breakpoints hw st none).state.installed)) := by
  constructor
  · intro hw st hnodup hok
    have hfilter : st.cache.breakpoints.filter (matchesFilter none)
        = st.cache.breakpoints.filter isSourceBp :=
      List.filter_congr (fun b _ => matchesFilter_none_eq b)
    have hloop := clearLoop_ok hw st
      ((st.cache.breakpoints.filter (matchesFilter none)).map ActiveBreakpoint.address)
      (fun a _ => hok a)
    refine ⟨hloop.1, ?_⟩
    rw [show clear_breakpoints hw st none = clearLoop hw st
      ((st.cache.breakpoints.filter (matchesFilter none)).map ActiveBreakpoint.address) from rfl]
    rw [hloop.2, hfilter, foldl_removeFirstAt_source _ hnodup]
  · intro hw st pre b post hnodup hsplit hok hfail
    have htargets : (st.cache.breakpoints.filter (matchesFilter none)).map
        ActiveBreakpoint.address
        = pre.map ActiveBreakpoint.address ++ b.address :: post.map ActiveBreakpoint.address := by
      rw [hsplit]; simp
    have hok' : ∀ x ∈ pre.map ActiveBreakpoint.address, hw.failClear x = false := by
      intro x hx
      rcases List.mem_map.mp hx with ⟨y, hy, rfl⟩
      exact hok y hy
    have habort := clearLoop_abort hw st (pre.map ActiveBreakpoint.address) b.address
      (post.map ActiveBreakpoint.address) hok' hfail
    have hres : clear_breakpoints hw st none = clearLoop hw st
        ((st.cache.breakpoints.filter (matchesFilter none)).map ActiveBreakpoint.address) := rfl
    constructor
    · rw [hres, htargets, habort.1]
      rfl
    · intro x hx
      have hxfilter : x ∈ st.cache.breakpoints.filter (matchesFilter none) := by
        rw [hsplit]
        exact List.mem_append.mpr (Or.inr hx)
      have hxmem : x ∈ st.cache.breakpoints := List.mem_of_mem_filter hxfilter
      have hsubl : List.Sublist
          ((st.cache.breakpoints.filter (matchesFilter none)).map ActiveBreakpoint.address)
          (st.cache.breakpoints.map ActiveBreakpoint.address) :=
        List.Sublist.map ActiveBreakpoint.address (List.filter_sublist st.cache.breakpoints)
      have hsub : ((st.cache.breakpoints.filter (matchesFilter none)).map
          ActiveBreakpoint.address).Nodup := List.Nodup.sublist hsubl hnodup
      rw [htargets] at hsub
      rcases List.nodup_append.mp hsub with ⟨_, _, hdisj⟩
      have hxaddr : x.address ∉ pre.map ActiveBreakpoint.address := by
        intro hmem
        exact hdisj hmem (by
          rcases List.mem_cons.mp hx with rfl | hpost
          · exact List.mem_cons_self _ _
          · exact List.mem_cons_of_mem _ (List.mem_map.mpr ⟨x, hpost, rfl⟩))
      have hnot : ∀ a ∈ pre.map ActiveBreakpoint.address, x.address ≠ a :=
        fun a ha hcontra => hxaddr (hcontra ▸ ha)
      refine ⟨?_, ?_⟩
      · rw [hres, htargets, habort.2.1]
        exact mem_foldl_removeFirstAt x _ _ hxmem hnot
      · intro hinst
        rw [hres, htargets, habort.2.2]
        exact mem_foldl_erase x.address _ _ hinst hnot

/-- Witness for C7 (amended): two source records and one transient record at
distinct addresses; exactly the source records are cleared. -/
theorem clear_breakpoints_none_removes_source_witness :
    (((stC7w.cache.breakpoints.map ActiveBreakpoint.address)).Nodup ∧
     (clear_breakpoints hwOk stC7w none).result = .ok () ∧
     (clear_breakpoints hwOk stC7w none).state.cache.breakpoints =
       stC7w.cache.breakpoints.filter (fun b => !(isSourceBp b))) := by
  have h := (clear_breakpoints_none_removes_source.1 hwOk stC7w (by decide) (fun _ => rfl))
  exact ⟨by decide, h.1, h.2⟩

/-- A stored source location for `/tmp/main.c:42` whose column is the left
edge, to exercise the column normalization. -/
def locLeftEdge : SourceLocation :=
  { line := some 42, column := some .leftEdge, file := some "main.c", directory := some "/tmp" }

/-- A stored source location for `/tmp/other.c:7`. -/
def locOther : SourceLocation :=
  { line := some 7, column := none, file := some "other.c", directory := some "/tmp" }

/-- The location the resolver returns for `/tmp/main.c:42` after a rebuild. -/
def locResolved : SourceLocation :=
  { line := some 42, column := some (.column 1), file := some "main.c", directory := some "/tmp" }

/-- The resolver's answer for `/tmp/main.c:42`: address 264. -/
def vbResolved : VerifiedBreakpoint := { address := 264, source_location := locResolved }

/-- A resolver that resolves exactly `/tmp/main.c:42` at the left-edge
(normalized) column and fails everywhere else. -/
def diSample : DebugInfo :=
  { get_breakpoint_location := fun path line column =>
      if path = "/tmp/main.c" ∧ line = 42 ∧ column = some 0 then .ok vbResolved
      else .error "no valid breakpoint location" }

/-- The DAP source descriptor of the unresolvable breakpoint. -/
def srcOther : Source := { name := some "other.c", path := some "/tmp/other.c" }

/-- The starting state for the recompute scenario: a resolvable source
breakpoint, an unresolvable source breakpoint, and a transient record. -/
def stC8 : BpState :=
  { installed := [256, 260, 5]
    cache := { cdRunning with breakpoints :=
      [{ breakpoint_type := .sourceBreakpoint srcSample locLeftEdge, address := 256 },
       { breakpoint_type := .sourceBreakpoint srcOther locOther, address := 260 },
       bpOtherAt5] } }

/-- C8: with one resolvable and one unresolvable source breakpoint cached in
that order (plus a trailing non-source record), `recompute_breakpoints`
clears the first old hardware address, re-resolves it with the stored source
descriptor and normalized location and re-sets it, then clears the second,
fails to re-resolve it, and stops with a single descriptive error naming the
failing location; the non-source record is left untouched. -/
theorem recompute_breakpoints_fail_fast
    (hw : HwOracle) (di : DebugInfo) (st : BpState)
    (s1 s2 : Source) (loc1 loc2 : SourceLocation) (a1 a2 : Nat)
    (oth : ActiveBreakpoint) (p1 p2 : String) (vb1 : VerifiedBreakpoint) (e2 : String)
    (hbps : st.cache.breakpoints =
      [{ breakpoint_type := .sourceBreakpoint s1 loc1, address := a1 },
       { breakpoint_type := .sourceBreakpoint s2 loc2, address := a2 }, oth])
    (hoth : isSourceBp oth = false)
    (hp1 : loc1.combined_path = some p1)
    (hp2 : loc2.combined_path = some p2)
    (hres1 : di.get_breakpoint_location p1 (loc1.line.getD 0) (loc1.column.map columnToNat)
      = .ok vb1)
    (hres2 : di.get_breakpoint_location p2 (loc2.line.getD 0) (loc2.column.map columnToNat)
      = .error e2)
    (hc1 : hw.failClear a1 = false) (hc2 : hw.failClear a2 = false)
    (hset : hw.failSet vb1.address = false) :
    (recompute_breakpoints hw di st).result =
      .error ("Failed to recompute breakpoint at " ++ locString loc2 ++ " in "
        ++ sourceString s2 ++ ". Error: "
        ++ ("Cannot set breakpoint here. Try reducing compile time-, and link time-, optimization in your build configuration, or choose a different source location: " ++ e2)) ∧
    (recompute_breakpoints hw di st).state.cache.breakpoints =
      [oth, { breakpoint_type := .sourceBreakpoint s1 vb1.source_location
              address := vb1.address }] ∧
    (recompute_breakpoints hw di st).state.installed =
      ((st.installed.erase a1) ++ [vb1.address]).erase a2 := by
  obtain ⟨t, addrOth⟩ := oth
  cases t with
  | sourceBreakpoint so lo => simp [isSourceBp] at hoth
  | instructionBreakpoint =>
    simp [recompute_breakpoints, hbps, recomputeLoop, clear_breakpoint,
      clear_hw_breakpoint, hc1, hc2, removeFirstAt, hp1, hp2, verify_and_set_breakpoint,
      hres1, hres2, set_breakpoint, set_hw_breakpoint, hset, isSourceBp, List.filter_cons]

/-- Witness for C8: the concrete rebuild scenario; `/tmp/main.c:42` (left
edge, normalized to column 0) moves to address 264, `/tmp/other.c:7` no
longer resolves. -/
theorem recompute_breakpoints_fail_fast_witness :
    stC8.cache.breakpoints =
      [{ breakpoint_type := .sourceBreakpoint srcSample locLeftEdge, address := 256 },
       { breakpoint_type := .sourceBreakpoint srcOther locOther, address := 260 },
       bpOtherAt5] ∧
    isSourceBp bpOtherAt5 = false ∧
    locLeftEdge.combined_path = some "/tmp/main.c" ∧
    locOther.combined_path = some "/tmp/other.c" ∧
    ((recompute_breakpoints hwOk diSample stC8).result =
      .error ("Failed to recompute breakpoint at " ++ locString locOther ++ " in "
        ++ sourceString srcOther ++ ". Error: "
        ++ ("Cannot set breakpoint here. Try reducing compile time-, and link time-, optimization in your build configuration, or choose a different source location: " ++ "no valid breakpoint location")) ∧
     (recompute_breakpoints hwOk diSample stC8).state.cache.breakpoints =
       [bpOtherAt5, { breakpoint_type := .sourceBreakpoint srcSample vbResolved.source_location
                      address := vbResolved.address }] ∧
     (recompute_breakpoints hwOk diSample stC8).state.installed =
       ((stC8.installed.erase 256) ++ [vbResolved.address]).erase 260) :=
  ⟨rfl, rfl, rfl, rfl,
    recompute_breakpoints_fail_fast hwOk diSample stC8 srcSample srcOther locLeftEdge locOther
      256 260 bpOtherAt5 "/tmp/main.c" "/tmp/other.c" vbResolved "no valid breakpoint location"
      rfl rfl rfl rfl (by decide) (by decide) rfl rfl rfl⟩

/-- A stored source location with no combined file path (no file name). -/
def locNoPath : SourceLocation :=
  { line := some 10, column := none, file := none, directory := some "/tmp" }

/-- The starting state for the lost-breakpoint scenario: a source breakpoint
whose stored location has no combined path, then a transient record. -/
def stC10 : BpState :=
  { installed := [77, 5]
    cache := { cdRunning with breakpoints :=
      [{ breakpoint_type := .sourceBreakpoint srcSample locNoPath, address := 77 },
       bpOtherAt5] } }

/-- C10: a cached source breakpoint whose stored location has no combined
file path is cleared from the hardware slots and from the cache by
`recompute_breakpoints` but never re-installed (the resolver is never even
consulted — the conclusion holds for every resolver), and the operation
reports success for it rather than an error: the breakpoint is silently
lost. -/
theorem recompute_breakpoints_no_combined_path
    (hw : HwOracle) (di : DebugInfo) (st : BpState)
    (s : Source) (loc : SourceLocation) (a : Nat) (oth : ActiveBreakpoint)
    (hbps : st.cache.breakpoints =
      [{ breakpoint_type := .sourceBreakpoint s loc, address := a }, oth])
    (hoth : isSourceBp oth = false)
    (hpath : loc.combined_path = none)
    (hclear : hw.failClear a = false) :
    (recompute_breakpoints hw di st).result = .ok () ∧
    (recompute_breakpoints hw di st).state.cache.breakpoints = [oth] ∧
    (recompute_breakpoints hw di st).state.installed = st.installed.erase a := by
  obtain ⟨t, addrOth⟩ := oth
  cases t with
  | sourceBreakpoint so lo => simp [isSourceBp] at hoth
  | instructionBreakpoint =>
    simp [recompute_breakpoints, hbps, recomputeLoop, clear_breakpoint,
      clear_hw_breakpoint, hclear, removeFirstAt, hpath, isSourceBp, List.filter_cons]

/-- Witness for C10: the concrete pathless source breakpoint at address 77
is dropped from hardware and cache with a success result. -/
theorem recompute_breakpoints_no_combined_path_witness :
    stC10.cache.breakpoints =
      [{ breakpoint_type := .sourceBreakpoint srcSample locNoPath, address := 77 },
       bpOtherAt5] ∧
    isSourceBp bpOtherAt5 = false ∧
    locNoPath.combined_path = none ∧
    ((recompute_breakpoints hwOk diSample stC10).result = .ok () ∧
     (recompute_breakpoints hwOk diSample stC10).state.cache.breakpoints = [bpOtherAt5] ∧
     (recompute_breakpoints hwOk diSample stC10).state.installed =
       stC10.installed.erase 77) :=
  ⟨rfl, rfl, rfl,
    recompute_breakpoints_no_combined_path hwOk diSample stC10 srcSample locNoPath 77
      bpOtherAt5 rfl rfl rfl rfl⟩

end ProbeRs
